import Mathlib

/-!
Verification of the Recall-Aid orchestration core: a shallow embedding of
the adaptive polling scheduler, the inference gateway (queue, cache,
backoff, offline fallback), the observation-cycle controller and the
emergency escalation state machine, together with theorems settling the
specification's claims about them.

Sources embedded:
- `src/services/adaptive-scheduler.service.ts` (interval computation)
- `src/services/gemini.service.ts` (gateway queue, cache, fallback)
- `src/app.component.ts` (loop controller, escalation machine)
- `src/services/lifelog.data.ts` (schedule anchors, social circle)

Machine numbers are modelled with `Int`/`Nat`/`Rat` exact arithmetic
(JavaScript's `Math.floor(x * 1.5)` on the integer intervals involved is
exactly `x * 3 / 2` in integer division; `Math.floor(minutesIdle/5*5000)`
is the exact `ms / 60`). Wall-clock time is passed explicitly as a
`Clock` value (epoch milliseconds plus minutes-of-day, both read from
`Date` in the source).
-/

namespace RecallAid

/-- Wall-clock instant as the source reads it from `Date`: epoch
milliseconds (`Date.now()`) and minutes-of-day
(`getHours() * 60 + getMinutes()`). -/
structure Clock where
  nowMs : Int
  minutesOfDay : Nat
deriving DecidableEq, Repr

/-! ## Life log data (`lifelog.data.ts`) -/

/-- One entry of `LIFE_LOG.medication_reminders`. -/
structure MedicationReminder where
  time : String
  medication : String
  dosage : String
  location : String
  instructions : String
deriving DecidableEq, Repr

/-- One entry of `LIFE_LOG.daily_routine`. -/
structure RoutineTask where
  time : String
  task : String
deriving DecidableEq, Repr

/-- One entry of `LIFE_LOG.social_circle`. -/
structure SocialContact where
  name : String
  relationship : String
  phone : String
deriving DecidableEq, Repr

/-- The `LIFE_LOG.medication_reminders` array from `lifelog.data.ts`. -/
def medication_reminders : List MedicationReminder :=
  [ ⟨"09:00", "Lisinopril (Blood Pressure)", "10mg",
      "Blue pill bottle on kitchen counter", "Take with water"⟩,
    ⟨"13:00", "Multivitamin", "1 tablet", "Kitchen table", "Take after lunch"⟩,
    ⟨"20:00", "Donepezil", "5mg", "Nightstand", "Take before bed"⟩ ]

/-- The `LIFE_LOG.daily_routine` array from `lifelog.data.ts`. -/
def daily_routine : List RoutineTask :=
  [ ⟨"09:00", "Take blood pressure medication (blue pill bottle)"⟩,
    ⟨"13:00", "Lunch with caregiver"⟩,
    ⟨"18:00", "Water the plants in the living room"⟩ ]

/-- The `LIFE_LOG.social_circle` array from `lifelog.data.ts`. -/
def social_circle : List SocialContact :=
  [ ⟨"Leo", "Grandson", "555-0101"⟩,
    ⟨"Sarah", "Caregiver", "555-0199"⟩ ]

/-- Split a character list on a separator, mirroring JavaScript's
`String.prototype.split(sep)` on the underlying characters. -/
def splitOnChar (sep : Char) : List Char → List (List Char)
  | [] => [[]]
  | c :: cs =>
    let rest := splitOnChar sep cs
    if c = sep then [] :: rest
    else
      match rest with
      | r :: rs => (c :: r) :: rs
      | [] => [[c]]

/-- JavaScript's `Number(s)` on a digit string: the decimal value when every character
is a digit (and the string is nonempty), otherwise none (NaN). -/
def digitStringToNat? (cs : List Char) : Option Nat :=
  if cs ≠ [] ∧ cs.all Char.isDigit then
    some (cs.foldl (fun n c => n * 10 + (c.toNat - 48)) 0)
  else none

/-- The parse `event.time.split(':').map(Number)` followed by `h * 60 + m`: parse an
"HH:MM" time-of-day string into minutes since midnight. -/
def timeToMinutes (t : String) : Nat :=
  match (splitOnChar ':' t.toList).map (fun s => (digitStringToNat? s).getD 0) with
  | [h, m] => h * 60 + m
  | _ => 0

/-! ## Adaptive scheduler (`adaptive-scheduler.service.ts`) -/

/-- The scheduler's mutable fields and the environment signals
`calculateNextInterval` reads: `lastActivityTime`, the low-power signal
(battery < 20% and not charging), the slow-network classification, and
the connection's data-saver flag (false when no connection object). -/
structure SchedulerState where
  lastActivityTime : Int
  isLowPowerMode : Bool
  networkSlow : Bool
  saveData : Bool
deriving DecidableEq, Repr

/-- Function `recordActivity()`: reset the idle clock to the current time. -/
def recordActivity (clock : Clock) (s : SchedulerState) : SchedulerState :=
  { s with lastActivityTime := clock.nowMs }

/-- Function `checkCriticalTime(now)`: true when the current minutes-of-day is
within 30 minutes of any medication reminder or daily-routine anchor. -/
def checkCriticalTime (currentMinutes : Nat) : Bool :=
  let allEventTimes :=
    (medication_reminders.map (fun e => e.time)) ++
    (daily_routine.map (fun e => e.time))
  allEventTimes.any (fun t =>
    ((currentMinutes : Int) - (timeToMinutes t : Int)).natAbs ≤ 30)

/-- Function `calculateNextInterval()`: base 8000 ms; overridden to 3000 ms inside
a critical window (idle backoff skipped); otherwise linear idle backoff
`min(22000, floor(minutesIdle / 5 * 5000))` once idle exceeds 5 minutes;
then multiplicative penalties ×2 (low power), ×1.5 (slow network),
×1.5 (data saver), each floored. Exact arithmetic:
`floor(minutesIdle / 5 * 5000) = msSinceActivity / 60` and
`floor(x * 1.5) = x * 3 / 2`. -/
def calculateNextInterval (clock : Clock) (s : SchedulerState) : Nat :=
  let isCriticalTime := checkCriticalTime clock.minutesOfDay
  let interval1 : Nat := if isCriticalTime then 3000 else 8000
  let msSinceActivity : Int := clock.nowMs - s.lastActivityTime
  let interval2 : Nat :=
    if !isCriticalTime && decide (msSinceActivity > 300000) then
      interval1 + (min 22000 (msSinceActivity / 60)).toNat
    else interval1
  let interval3 : Nat := if s.isLowPowerMode then interval2 * 2 else interval2
  let interval4 : Nat := if s.networkSlow then interval3 * 3 / 2 else interval3
  let interval5 : Nat := if s.saveData then interval4 * 3 / 2 else interval4
  interval5

/-! ## Inference gateway (`gemini.service.ts`) -/

/-- Field `ObservationResult.emergencyLevel`: the closed string enum
`'NONE' | 'SOFT' | 'CRITICAL'`. -/
inductive EmergencyLevel
  | NONE
  | SOFT
  | CRITICAL
deriving DecidableEq, Repr

/-- A cue modality tag, `'visual' | 'audio'`. -/
inductive Cue
  | visual
  | audio
deriving DecidableEq, Repr

/-- The `ObservationResult` interface. `confidence` (a float in [0,1]) is
modelled as an exact rational. -/
structure ObservationResult where
  needsAssistance : Bool
  emergencyLevel : EmergencyLevel
  cues : List Cue
  confidence : ℚ
  observation : String
  contextTrigger : Option String := none
  isPrivacyZone : Bool
  detectedLocation : String
deriving DecidableEq, Repr

/-- The entry stored in `lastObservation`: the cached result, its store
timestamp, and the motion score used as a visual-hash proxy. -/
structure CacheEntry where
  result : ObservationResult
  timestamp : Int
  visualHash : Int
deriving DecidableEq, Repr

/-- A `QueuedTask` as the gateway queue sees it: identity and callbacks
are irrelevant to dispatch counting, so only the fields the drain loop
reads (`timestamp` for staleness, `retryable` for offline handling) are
kept. -/
structure QueuedTask where
  timestamp : Int
  retryable : Bool
deriving DecidableEq, Repr

/-- The constant `MAX_CONCURRENT_REQUESTS = 2`. -/
def MAX_CONCURRENT_REQUESTS : Nat := 2

/-- The gateway's cross-cutting mutable state: the pending task queue,
the in-flight request counter, the rate-limit backoff deadline, the
online flag, and the observation cache. -/
structure GatewayState where
  taskQueue : List QueuedTask
  activeRequests : Nat
  backoffUntil : Int
  isOnline : Bool
  lastObservation : Option CacheEntry
deriving DecidableEq, Repr

/-- The state the service constructor builds: empty queue, no requests
in flight, no backoff, online, empty cache. -/
def GatewayState.init : GatewayState :=
  { taskQueue := [], activeRequests := 0, backoffUntil := 0,
    isOnline := true, lastObservation := none }

/-- The `while (activeRequests < MAX_CONCURRENT_REQUESTS &&
taskQueue.length > 0)` loop of `processQueue`: shift a task and increment
the in-flight counter while the cap allows, returning the final counter
and remaining queue. -/
def drainQueue (activeRequests : Nat) : List QueuedTask → Nat × List QueuedTask
  | [] => (activeRequests, [])
  | t :: rest =>
    if activeRequests < MAX_CONCURRENT_REQUESTS then
      drainQueue (activeRequests + 1) rest
    else (activeRequests, t :: rest)

/-- Function `processQueue()`: return at once when offline; defer (scheduling a
retry, no dispatch) while the backoff deadline is in the future; drop
tasks older than 5 minutes; then dispatch while under the concurrency
cap. -/
def processQueue (now : Int) (st : GatewayState) : GatewayState :=
  if !st.isOnline then st
  else if now < st.backoffUntil then st
  else
    let fresh := st.taskQueue.filter (fun t => now - t.timestamp < 300000)
    let (a, q) := drainQueue st.activeRequests fresh
    { st with activeRequests := a, taskQueue := q }

/-- Function `enqueue(taskFn, retryable)`: when offline, queue the task only if it
is retryable (otherwise reject it and leave the state unchanged); when
online, append it and run `processQueue`. -/
def enqueueTask (now : Int) (retryable : Bool) (st : GatewayState) : GatewayState :=
  let task : QueuedTask := { timestamp := now, retryable := retryable }
  if !st.isOnline then
    if retryable then { st with taskQueue := st.taskQueue ++ [task] } else st
  else
    processQueue now { st with taskQueue := st.taskQueue ++ [task] }

/-- The `.finally` continuation of a dispatched task: decrement the
in-flight counter, then re-invoke `processQueue`. -/
def completeTask (now : Int) (st : GatewayState) : GatewayState :=
  processQueue now { st with activeRequests := st.activeRequests - 1 }

/-- The gateway events that touch the queue and in-flight counter: an
`enqueue` call, a dispatched task settling, the window `online`/`offline`
listeners, and the 1 s backoff retry timer re-invoking `processQueue`. -/
inductive GatewayEvent
  | enqueue (now : Int) (retryable : Bool)
  | complete (now : Int)
  | goOnline (now : Int)
  | goOffline
  | backoffRetry (now : Int)

/-- One gateway state transition per event. -/
def gatewayStep (st : GatewayState) : GatewayEvent → GatewayState
  | .enqueue now retryable => enqueueTask now retryable st
  | .complete now => completeTask now st
  | .goOnline now => processQueue now { st with isOnline := true }
  | .goOffline => { st with isOnline := false }
  | .backoffRetry now => processQueue now st

/-- The gateway states reachable from the constructor's state under any
sequence of events. -/
inductive GatewayReachable : GatewayState → Prop
  | init : GatewayReachable GatewayState.init
  | step {st : GatewayState} (e : GatewayEvent) :
      GatewayReachable st → GatewayReachable (gatewayStep st e)

/-- Function `handleError(e)`: on a rate-limit signal (HTTP 429 /
`RESOURCE_EXHAUSTED` in the error text) set the global backoff deadline
to now + 30 s. -/
def handleError (now : Int) (rateLimited : Bool) (st : GatewayState) : GatewayState :=
  if rateLimited then { st with backoffUntil := now + 30000 } else st

/-- Function `runOfflineFallbackAnalysis(visualChangeScore)`: rule-based local
analyzer. Flags `needsAssistance` with confidence 0.6 when now is within
15 minutes of a medication reminder; raises confidence to at least 0.4 on
a motion score above 80; always reports `emergencyLevel` NONE. -/
def runOfflineFallbackAnalysis (minutesOfDay : Nat) (visualChangeScore : Int) :
    ObservationResult :=
  let currentMinutes := minutesOfDay
  let activeMed := medication_reminders.find? (fun m =>
    ((timeToMinutes m.time : Int) - (currentMinutes : Int)).natAbs ≤ 15)
  let observation := "System Offline. Monitoring sensors locally."
  let needsAssistance := false
  let confidence : ℚ := 1/10
  let observation :=
    match activeMed with
    | some med =>
      "Offline Reminder: Scheduled time for " ++ med.medication ++
        " (" ++ med.time ++ ")."
    | none => observation
  let needsAssistance :=
    match activeMed with
    | some _ => true
    | none => needsAssistance
  let confidence :=
    match activeMed with
    | some _ => (6/10 : ℚ)
    | none => confidence
  let observation :=
    if visualChangeScore > 80 then observation ++ " Significant motion detected."
    else observation
  let confidence :=
    if visualChangeScore > 80 then max confidence (4/10 : ℚ) else confidence
  { needsAssistance := needsAssistance,
    emergencyLevel := .NONE,
    cues := [],
    confidence := confidence,
    observation := observation,
    isPrivacyZone := false,
    detectedLocation := "Unknown (Offline)" }

/-- JavaScript truthiness of the `base64Audio: string | null` argument:
`null` and the empty string are falsy. -/
def audioTruthy : Option String → Bool
  | none => false
  | some s => s ≠ ""

/-- The test `lastObservation && age < CACHE_TTL_MS`: a cached entry exists and is
younger than 60 000 ms. -/
def cacheFresh (now : Int) (st : GatewayState) : Bool :=
  match st.lastObservation with
  | some c => now - c.timestamp < 60000
  | none => false

/-- Which return path of `observeEnvironment` produced a result: the
offline/backoff rule-based fallback, the observation cache, or a parsed
remote response. -/
inductive ObsSource
  | fromFallback
  | fromCache
  | fromRemote
deriving DecidableEq, Repr

/-- Outcome of one dispatched remote `generateContent` call as
`observeEnvironment`'s catch handler classifies it: a parsed response, or
an error carrying whether its text matches the rate-limit markers
(429/`RESOURCE_EXHAUSTED`) and the payload-error markers
(400/`INVALID_ARGUMENT`). -/
inductive RemoteOutcome
  | ok (r : ObservationResult)
  | err (rateLimited : Bool) (invalidArg : Bool)

/-- The synchronous prefix of `observeEnvironment`: offline/backoff check
(fallback), then cache check (`!base64Audio && visualChangeScore < 5 &&
lastObservation && age < CACHE_TTL_MS`), else run the dispatched
continuation. -/
def observeCore (clock : Clock) (st : GatewayState) (audio : Option String)
    (visualChangeScore : Int)
    (dispatch : GatewayState → ObservationResult × ObsSource × GatewayState) :
    ObservationResult × ObsSource × GatewayState :=
  if !st.isOnline || decide (clock.nowMs < st.backoffUntil) then
    (runOfflineFallbackAnalysis clock.minutesOfDay visualChangeScore, .fromFallback, st)
  else
    match st.lastObservation with
    | some c =>
      if !audioTruthy audio && decide (visualChangeScore < 5) &&
          decide (clock.nowMs - c.timestamp < 60000) then
        (c.result, .fromCache, st)
      else dispatch st
    | none => dispatch st

/-- The dispatched body of `observeEnvironment` on a retry call (audio
already stripped): a parsed response updates `lastObservation`; an error
runs `handleError` and, since no audio is attached, falls back to the
offline analyzer. -/
def observeDispatchNoAudio (clock : Clock) (visualChangeScore : Int)
    (outcome : RemoteOutcome) (st : GatewayState) :
    ObservationResult × ObsSource × GatewayState :=
  match outcome with
  | .ok r =>
    (r, .fromRemote,
      { st with lastObservation := some ⟨r, clock.nowMs, visualChangeScore⟩ })
  | .err rateLimited _ =>
    (runOfflineFallbackAnalysis clock.minutesOfDay visualChangeScore, .fromFallback,
      handleError clock.nowMs rateLimited st)

/-- Function `observeEnvironment(base64Image, base64Audio, visualChangeScore)`:
offline/backoff fallback, cache check, then the dispatched call.
A parsed response is returned and stored in `lastObservation`; on a
payload error (400/`INVALID_ARGUMENT`) with audio attached, the call is
retried once with audio stripped (`retryOutcome` resolving that second
call, which re-runs the offline/backoff and cache checks); any other
error falls back to the offline analyzer. The `ObsSource` component
records which return path produced the result. -/
def observeEnvironment (clock : Clock) (st : GatewayState) (audio : Option String)
    (visualChangeScore : Int) (outcome retryOutcome : RemoteOutcome) :
    ObservationResult × ObsSource × GatewayState :=
  observeCore clock st audio visualChangeScore (fun st1 =>
    match outcome with
    | .ok r =>
      (r, .fromRemote,
        { st1 with lastObservation := some ⟨r, clock.nowMs, visualChangeScore⟩ })
    | .err rateLimited invalidArg =>
      let st2 := handleError clock.nowMs rateLimited st1
      if audioTruthy audio && invalidArg then
        observeCore clock st2 none visualChangeScore
          (observeDispatchNoAudio clock visualChangeScore retryOutcome)
      else
        (runOfflineFallbackAnalysis clock.minutesOfDay visualChangeScore, .fromFallback, st2))

/-! ## Health monitor (`health-monitor.service.ts`) -/

/-- The `componentStatus` record plus the derived `isSafeMode` and `systemStatus`
signals of the health monitor. -/
structure HealthState where
  camera : Bool
  mic : Bool
  ai : Bool
  tts : Bool
  isSafeMode : Bool
  systemStatus : String
deriving DecidableEq, Repr

/-- Function `evaluateSystemState()`: camera loss forces safe mode (DEGRADED);
any other component loss is DEGRADED without safe mode; both input
sensors dead is CRITICAL. -/
def evaluateSystemState (h : HealthState) : HealthState :=
  let h :=
    if !h.camera then { h with isSafeMode := true, systemStatus := "DEGRADED" }
    else if !h.ai || !h.mic || !h.tts then
      { h with systemStatus := "DEGRADED", isSafeMode := false }
    else { h with systemStatus := "HEALTHY", isSafeMode := false }
  if !h.mic && !h.camera then { h with systemStatus := "CRITICAL" } else h

/-- Function `reportError('camera')`: mark the camera failed and re-evaluate. -/
def reportCameraError (h : HealthState) : HealthState :=
  evaluateSystemState { h with camera := false }

/-! ## Observation-cycle controller and escalation machine
(`app.component.ts`) -/

/-- Which emergency timer the single `emergencyTimer` handle holds: the
level-1 check-in auto-cancel timeout, or the level-2/3 per-second
countdown toward a contact call. -/
inductive EmergencyTimer
  | checkIn
  | countdown (contactName : String) (phoneNumber : String)
deriving DecidableEq, Repr

/-- The `recentCues` set of modality tags. -/
structure CueSet where
  visual : Bool
  audio : Bool
deriving DecidableEq, Repr

/-- The empty cue set (`new Set()`). -/
def CueSet.empty : CueSet := ⟨false, false⟩

/-- The `AppComponent` fields the orchestration core reads and writes:
state signals, the emergency machine's state, the single loop timer and
single emergency timer handles, the scheduler's state and the health
monitor's state. A `loopTimeout` of `some i` is a pending single-shot
timer armed with delay `i`; `none` means no pending timer. -/
structure AppState where
  isActive : Bool
  isObserving : Bool
  isLoopPaused : Bool
  lastCheckInTime : Option Int
  isSettingsOpen : Bool
  isDashboardOpen : Bool
  isPrivacyMode : Bool
  emergencyLevel : Nat
  emergencyCountdown : Nat
  emergencyReason : String
  recentCues : CueSet
  loopIntervalMs : Nat
  currentObservation : Option ObservationResult
  loopTimeout : Option Nat
  emergencyTimer : Option EmergencyTimer
  scheduler : SchedulerState
  health : HealthState
  confusionThreshold : ℚ
deriving DecidableEq, Repr

/-- Function `stopLoop()`: clear the pending loop timer (only) and drop the
observing flag. -/
def stopLoop (st : AppState) : AppState :=
  { st with loopTimeout := none, isObserving := false }

/-- Function `startLoop()`: always `stopLoop` first; return without arming when in
privacy mode, during an active emergency, while paused, or when the
system is inactive; otherwise ask the scheduler for the next interval and
arm a single-shot timer with it. -/
def startLoop (clock : Clock) (st : AppState) : AppState :=
  let st := stopLoop st
  if st.isPrivacyMode || decide (st.emergencyLevel > 0) || st.isLoopPaused ||
      !st.isActive then st
  else
    let interval := calculateNextInterval clock st.scheduler
    { st with loopIntervalMs := interval, loopTimeout := some interval }

/-- Function `clearEmergencyTimer()`: idempotently clear the emergency timer
handle. -/
def clearEmergencyTimer (st : AppState) : AppState :=
  { st with emergencyTimer := none }

/-- Function `startCountdown(contactName, phoneNumber)`: clear the previous
emergency timer, then hold the per-second countdown interval toward the
given contact. -/
def startCountdown (contactName phoneNumber : String) (st : AppState) : AppState :=
  let st := clearEmergencyTimer st
  { st with emergencyTimer := some (.countdown contactName phoneNumber) }

/-- The caregiver contact lookup in `triggerEmergency`:
`social_circle.find(p => p.relationship === 'Caregiver') ||
social_circle[0]`. -/
def caregiverContact : SocialContact :=
  (social_circle.find? (fun p => p.relationship = "Caregiver")).getD
    (social_circle.headD ⟨"", "", ""⟩)

/-- Function `triggerEmergency(level, reason)` — the escalation entry point.
No-op when the current level is already ≥ `level`; otherwise close the
settings/dashboard panels, set level and reason, stop the loop, record
activity, then per level: level 1 arms the 60 s check-in auto-cancel
timer (after the check-in prompt); level 2 sets a 15-step countdown
toward the caregiver; level 3 sets a 10-step countdown toward emergency
services. -/
def triggerEmergency (clock : Clock) (st : AppState) (level : Nat)
    (reason : String) : AppState :=
  if st.emergencyLevel ≥ level then st
  else
    let st := { st with isSettingsOpen := false, isDashboardOpen := false }
    let st := { st with emergencyLevel := level, emergencyReason := reason }
    let st := stopLoop st
    let st := { st with scheduler := recordActivity clock st.scheduler }
    if level = 1 then
      { st with emergencyTimer := some .checkIn }
    else if level = 2 then
      startCountdown caregiverContact.name caregiverContact.phone
        { st with emergencyCountdown := 15 }
    else if level = 3 then
      startCountdown "911" "911" { st with emergencyCountdown := 10 }
    else st

/-- Function `cancelEmergency()`: clear the emergency timer, reset level to 0 and
reason to the empty string, clear the accumulated cues, and restart the
observation loop. -/
def cancelEmergency (clock : Clock) (st : AppState) : AppState :=
  let st := clearEmergencyTimer st
  let st := { st with emergencyLevel := 0, emergencyReason := "",
                      recentCues := CueSet.empty }
  startLoop clock st

/-- What one fired cycle did after passing the entry guard, as the
`processLoop` control flow distinguishes it: capture returned no frame
outside safe mode; the observe call threw; or the observe call resolved
with a result. -/
inductive CycleOutcome
  | captureFail
  | observeThrew
  | observed (r : ObservationResult)

/-- Function `processLoop()` — one firing of the loop timer. Entry guard: return
unchanged (arming nothing) when inactive, paused, or in an active
emergency. Otherwise mark observing and the check-in time, then follow
the cycle outcome: a capture failure reports camera degradation and calls
`startLoop` before its early return (the `finally` block still runs,
clearing the observing flag and calling `startLoop` again); an observe
exception is caught and falls through to the `finally` rescheduling; a
result is stored, may enter privacy mode on a privacy-zone detection, and
may escalate (CRITICAL → level 3, SOFT → level 1) or request reasoning
when assistance is needed with confidence above the threshold, after
which the `finally` block reschedules. -/
def processLoop (clock : Clock) (st : AppState) (outcome : CycleOutcome) : AppState :=
  if !st.isActive || st.isLoopPaused || decide (st.emergencyLevel > 0) then st
  else
    let st := { st with isObserving := true, lastCheckInTime := some clock.nowMs }
    match outcome with
    | .captureFail =>
      let st := { st with health := reportCameraError st.health }
      let st := startLoop clock st
      let st := { st with isObserving := false }
      startLoop clock st
    | .observeThrew =>
      let st := { st with isObserving := false }
      startLoop clock st
    | .observed r =>
      let st := { st with currentObservation := some r }
      let st :=
        if r.isPrivacyZone && !st.isPrivacyMode then
          { st with isPrivacyMode := true }
        else st
      let st :=
        if r.needsAssistance && decide (r.confidence > st.confusionThreshold) then
          if r.emergencyLevel = .CRITICAL then
            triggerEmergency clock st 3 r.observation
          else if r.emergencyLevel = .SOFT then
            triggerEmergency clock st 1 r.observation
          else st
        else st
      let st := { st with isObserving := false }
      startLoop clock st

/-! ## Sample states for concrete evaluations -/

/-- A sample clock: 10:00 (600 minutes, outside every critical window),
epoch 1 000 000 ms. -/
def sampleClock : Clock := ⟨1000000, 600⟩

/-- A sample benign observation result. -/
def sampleResult : ObservationResult :=
  { needsAssistance := false, emergencyLevel := .NONE, cues := [],
    confidence := 9/10, observation := "User reading calmly",
    isPrivacyZone := false, detectedLocation := "living_room" }

/-- A nominal running component state: active, unpaused, no emergency,
no privacy mode, healthy, no pending timers. -/
def baseAppState : AppState :=
  { isActive := true, isObserving := false, isLoopPaused := false,
    lastCheckInTime := none, isSettingsOpen := false, isDashboardOpen := false,
    isPrivacyMode := false, emergencyLevel := 0, emergencyCountdown := 10,
    emergencyReason := "", recentCues := CueSet.empty, loopIntervalMs := 8000,
    currentObservation := none, loopTimeout := none, emergencyTimer := none,
    scheduler := ⟨0, false, false, false⟩,
    health := ⟨true, true, true, true, false, "HEALTHY"⟩,
    confusionThreshold := 6/10 }

/-- The nominal state with the loop paused via the `PAUSE` command. -/
def pausedAppState : AppState :=
  { baseAppState with isLoopPaused := true }

/-- The nominal state with privacy mode switched on (the pending loop
timer, once fired, is not re-armed in this mode). -/
def privacyAppState : AppState :=
  { baseAppState with isPrivacyMode := true }

/-- A level-2 emergency in progress: caregiver countdown at 7. -/
def emergencyAppState : AppState :=
  { baseAppState with
      emergencyLevel := 2, emergencyReason := "Concern",
      emergencyCountdown := 7,
      emergencyTimer := some (.countdown "Sarah" "555-0199") }

/-- An online gateway state holding a cache entry stored at time 0. -/
def cachedOnlineState : GatewayState :=
  { GatewayState.init with lastObservation := some ⟨sampleResult, 0, 0⟩ }

/-- An offline gateway state holding the same fresh cache entry. -/
def offlineCachedState : GatewayState :=
  { cachedOnlineState with isOnline := false }

/-! ## Theorems -/

/-- C1. A call `triggerEmergency(level, reason)` with `level` at most the
current emergency level is a complete no-op: the whole component state —
emergency level, reason, countdown, and both timer handles — is
unchanged. -/
theorem triggerEmergency_noop_of_le (clock : Clock) (st : AppState)
    (level : Nat) (reason : String) (h : level ≤ st.emergencyLevel) :
    triggerEmergency clock st level reason = st := by
  unfold triggerEmergency
  exact if_pos h

/-- C1 witness: `escalate(2)` followed by `escalate(1)` leaves the level
at 2 and the whole state exactly as after the first call. -/
theorem triggerEmergency_noop_example :
    1 ≤ (triggerEmergency sampleClock baseAppState 2 "concern").emergencyLevel ∧
    triggerEmergency sampleClock
        (triggerEmergency sampleClock baseAppState 2 "concern") 1 "again" =
      triggerEmergency sampleClock baseAppState 2 "concern" ∧
    (triggerEmergency sampleClock baseAppState 2 "concern").emergencyLevel = 2 :=
  ⟨by decide, triggerEmergency_noop_of_le _ _ _ _ (by decide), by decide⟩

/-- C2. The offline/backoff fallback analyzer reports `emergencyLevel`
NONE for every time of day and every motion score. -/
theorem runOfflineFallbackAnalysis_level_NONE (minutesOfDay : Nat)
    (visualChangeScore : Int) :
    (runOfflineFallbackAnalysis minutesOfDay visualChangeScore).emergencyLevel =
      EmergencyLevel.NONE := by
  rfl

/-- C8. For every wall-clock time and scheduler state the computed
interval lies between 3000 ms (the critical-window constant, the least
value the computation can produce) and 135000 ms (maximal idle backoff
with all three resource multipliers, the greatest value it can
produce). -/
theorem calculateNextInterval_bounds (clock : Clock) (s : SchedulerState) :
    3000 ≤ calculateNextInterval clock s ∧
      calculateNextInterval clock s ≤ 135000 := by
  unfold calculateNextInterval
  have hb : (min 22000 ((clock.nowMs - s.lastActivityTime) / 60)).toNat ≤ 22000 := by
    have h1 := min_le_left (22000 : Int) ((clock.nowMs - s.lastActivityTime) / 60)
    omega
  cases checkCriticalTime clock.minutesOfDay <;>
    cases s.isLowPowerMode <;> cases s.networkSlow <;> cases s.saveData <;>
    simp <;> split_ifs <;> omega

/-- C9 counterexample: at 09:00 (a schedule anchor, so inside a critical
window) with low battery the returned interval is 6000 ms, not the
3000 ms fast constant — the resource multipliers are applied after the
critical-window override. -/
theorem calculateNextInterval_critical_not_3000 :
    checkCriticalTime 540 = true ∧
      calculateNextInterval ⟨0, 540⟩ ⟨0, true, false, false⟩ = 6000 ∧
      calculateNextInterval ⟨0, 540⟩ ⟨0, true, false, false⟩ ≠ 3000 := by
  decide

/-- C9 (amended). Within 30 minutes of a schedule anchor the interval is
the 3000 ms fast constant with only the resource multipliers (low power
×2, slow network ×1.5, data saver ×1.5) applied — in particular it is
independent of the idle duration, and equals 3000 exactly when no
multiplier is active. -/
theorem calculateNextInterval_critical (clock : Clock) (s : SchedulerState)
    (h : checkCriticalTime clock.minutesOfDay = true) :
    calculateNextInterval clock s =
      (let i3 := if s.isLowPowerMode then 3000 * 2 else 3000
       let i4 := if s.networkSlow then i3 * 3 / 2 else i3
       if s.saveData then i4 * 3 / 2 else i4) := by
  unfold calculateNextInterval
  simp [h]

/-- C9 witness: at 09:00 with a 1000-minute idle duration and no
resource pressure the interval is exactly 3000 ms — the idle backoff is
skipped. -/
theorem calculateNextInterval_critical_example :
    checkCriticalTime 540 = true ∧
      calculateNextInterval ⟨0, 540⟩ ⟨-60000000, false, false, false⟩ = 3000 :=
  ⟨by decide, by rw [calculateNextInterval_critical _ _ (by decide)]; decide⟩

/-- C3 counterexample: the loop timer fires while the system is nominally
active but paused; `processLoop` skips the cycle body AND returns without
arming any new timer — the state is returned unchanged with
`loopTimeout = none`, contradicting "a new timer is still armed". -/
theorem processLoop_guard_fail_no_rearm :
    pausedAppState.isActive = true ∧
      processLoop sampleClock pausedAppState CycleOutcome.observeThrew =
        pausedAppState ∧
      (processLoop sampleClock pausedAppState
          CycleOutcome.observeThrew).loopTimeout = none :=
  ⟨rfl, rfl, rfl⟩

/-- C3 (amended). When the loop timer fires while the entry guard fails
(system inactive, paused, or an active emergency — privacy mode is not
part of this guard), `processLoop` returns immediately: the cycle body is
skipped and no new timer is armed (the state is unchanged); the loop is
re-armed only by the corresponding resume paths (`RESUME`,
`cancelEmergency`, reactivation). -/
theorem processLoop_guard_fail (clock : Clock) (st : AppState)
    (outcome : CycleOutcome)
    (h : st.isActive = false ∨ st.isLoopPaused = true ∨ 0 < st.emergencyLevel) :
    processLoop clock st outcome = st := by
  unfold processLoop
  rcases h with h | h | h <;> simp [h]

/-- C3 witness: the amended theorem at the concrete paused state. -/
theorem processLoop_guard_fail_example :
    processLoop sampleClock pausedAppState CycleOutcome.captureFail =
      pausedAppState :=
  processLoop_guard_fail _ _ _ (Or.inr (Or.inl rfl))

/-- C4 counterexample: a cycle that passes the entry guard (active, not
paused, no emergency) while privacy mode is on and then throws: the
exception is caught and the cleanup runs `startLoop`, but `startLoop`'s
own guard declines, so no loop timer is armed after the failing cycle. -/
theorem processLoop_exception_privacy_no_rearm :
    privacyAppState.isActive = true ∧
      privacyAppState.isLoopPaused = false ∧
      privacyAppState.emergencyLevel = 0 ∧
      (processLoop sampleClock privacyAppState
          CycleOutcome.observeThrew).loopTimeout = none :=
  ⟨rfl, rfl, rfl, rfl⟩

/-- C4 (amended). If a cycle that passed the entry guard throws, the
exception is caught and the always-executed cleanup calls `startLoop`;
a loop timer is armed again whenever `startLoop`'s own guard holds at
cleanup — in particular whenever privacy mode is off at entry (the
exception path changes none of the guarded flags), with the interval
freshly requested from the scheduler. -/
theorem processLoop_exception_rearms (clock : Clock) (st : AppState)
    (hA : st.isActive = true) (hP : st.isLoopPaused = false)
    (hE : st.emergencyLevel = 0) (hPriv : st.isPrivacyMode = false) :
    (processLoop clock st CycleOutcome.observeThrew).loopTimeout =
      some (calculateNextInterval clock st.scheduler) := by
  unfold processLoop startLoop stopLoop
  simp [hA, hP, hE, hPriv]

/-- C4 witness: the amended theorem at the nominal running state. -/
theorem processLoop_exception_rearms_example :
    (processLoop sampleClock baseAppState CycleOutcome.observeThrew).loopTimeout =
      some (calculateNextInterval sampleClock baseAppState.scheduler) :=
  processLoop_exception_rearms sampleClock baseAppState rfl rfl rfl rfl

/-- C5. From any prior state, `cancelEmergency()` clears the emergency
timer handle (countdown or check-in), resets the level to 0 and the
reason to the empty string, and restarts the observation loop: whenever
the system is active, unpaused and not in privacy mode, a fresh loop
timer is armed with the scheduler's next interval. -/
theorem cancelEmergency_resets (clock : Clock) (st : AppState) :
    (cancelEmergency clock st).emergencyLevel = 0 ∧
      (cancelEmergency clock st).emergencyReason = "" ∧
      (cancelEmergency clock st).emergencyTimer = none ∧
      (st.isActive = true → st.isLoopPaused = false → st.isPrivacyMode = false →
        (cancelEmergency clock st).loopTimeout =
          some (calculateNextInterval clock st.scheduler)) := by
  simp only [cancelEmergency, clearEmergencyTimer, startLoop, stopLoop]
  refine ⟨?_, ?_, ?_, fun hA hP hPriv => ?_⟩
  · split <;> rfl
  · split <;> rfl
  · split <;> rfl
  · simp [hA, hP, hPriv]

/-- C5 witness: cancelling from level 2 with a running caregiver
countdown clears the timer, returns the level to 0, empties the reason
and re-arms the loop timer. -/
theorem cancelEmergency_resets_example :
    (cancelEmergency sampleClock emergencyAppState).emergencyLevel = 0 ∧
      (cancelEmergency sampleClock emergencyAppState).emergencyReason = "" ∧
      (cancelEmergency sampleClock emergencyAppState).emergencyTimer = none ∧
      (cancelEmergency sampleClock emergencyAppState).loopTimeout =
        some (calculateNextInterval sampleClock emergencyAppState.scheduler) :=
  ⟨(cancelEmergency_resets _ _).1, (cancelEmergency_resets _ _).2.1,
    (cancelEmergency_resets _ _).2.2.1,
    (cancelEmergency_resets _ _).2.2.2 rfl rfl rfl⟩

/-- The drain loop only ever raises the in-flight counter to the
concurrency cap: if the counter is within the cap on entry it is within
the cap on exit. -/
theorem drainQueue_le (a : Nat) (q : List QueuedTask)
    (h : a ≤ MAX_CONCURRENT_REQUESTS) :
    (drainQueue a q).1 ≤ MAX_CONCURRENT_REQUESTS := by
  induction q generalizing a with
  | nil => simpa [drainQueue] using h
  | cons t rest ih =>
    unfold drainQueue
    split
    · exact ih (a + 1) (by omega)
    · simpa using h

/-- Function `processQueue` preserves the concurrency cap on the in-flight
counter. -/
theorem processQueue_le (now : Int) (st : GatewayState)
    (h : st.activeRequests ≤ MAX_CONCURRENT_REQUESTS) :
    (processQueue now st).activeRequests ≤ MAX_CONCURRENT_REQUESTS := by
  unfold processQueue
  split
  · exact h
  · split
    · exact h
    · exact drainQueue_le _ _ h

/-- C6. In every gateway state reachable from the initial state by any
sequence of enqueues, completions (which decrement the counter before
re-invoking the drain), connectivity flips and backoff retries, the count
of simultaneously in-flight dispatched tasks never exceeds
`MAX_CONCURRENT_REQUESTS` (2): the drain loop dispatches only while
`activeRequests < MAX_CONCURRENT_REQUESTS`. -/
theorem gateway_active_le_max (st : GatewayState) (h : GatewayReachable st) :
    st.activeRequests ≤ MAX_CONCURRENT_REQUESTS := by
  induction h with
  | init => simp [GatewayState.init]
  | step e _ ih =>
    cases e with
    | enqueue now retryable =>
      simp only [gatewayStep, enqueueTask]
      split
      · split
        · simpa using ih
        · exact ih
      · exact processQueue_le _ _ (by simpa using ih)
    | complete now =>
      simp only [gatewayStep, completeTask]
      refine processQueue_le _ _ ?_
      simp only []
      omega
    | goOnline now =>
      simp only [gatewayStep]
      exact processQueue_le _ _ (by simpa using ih)
    | goOffline => simpa [gatewayStep] using ih
    | backoffRetry now =>
      simp only [gatewayStep]
      exact processQueue_le _ _ ih

/-- C6 witness: a concrete burst of four enqueues from the initial state
leaves at most 2 requests in flight. -/
theorem gateway_active_le_max_example :
    (gatewayStep (gatewayStep (gatewayStep (gatewayStep GatewayState.init
        (.enqueue 0 true)) (.enqueue 1 true)) (.enqueue 2 false))
        (.enqueue 3 true)).activeRequests ≤ MAX_CONCURRENT_REQUESTS :=
  gateway_active_le_max _
    (GatewayReachable.step _ (GatewayReachable.step _ (GatewayReachable.step _
      (GatewayReachable.step _ GatewayReachable.init))))

/-- When the gateway is online, out of backoff, and the cache test (no
truthy audio, motion score under 5, entry younger than 60 s) passes,
`observeEnvironment` returns the cached result, touching nothing. -/
theorem observeEnvironment_hit (clock : Clock) (st : GatewayState)
    (audio : Option String) (visualChangeScore : Int) (o ro : RemoteOutcome)
    (c : CacheEntry) (hOn : st.isOnline = true)
    (hBo : ¬ clock.nowMs < st.backoffUntil) (hc : st.lastObservation = some c)
    (hA : audioTruthy audio = false) (hS : visualChangeScore < 5)
    (hF : clock.nowMs - c.timestamp < 60000) :
    observeEnvironment clock st audio visualChangeScore o ro =
      (c.result, ObsSource.fromCache, st) := by
  simp [observeEnvironment, observeCore, hc, hOn, hBo, hA, hS, hF]

/-- When the gateway is online and out of backoff but the cache test
fails, a call is dispatched; if it parses, the result is returned
`fromRemote` and stored in the cache. -/
theorem observeEnvironment_ok_miss (clock : Clock) (st : GatewayState)
    (audio : Option String) (visualChangeScore : Int)
    (r : ObservationResult) (ro : RemoteOutcome)
    (hOn : st.isOnline = true) (hBo : ¬ clock.nowMs < st.backoffUntil)
    (hMiss : (!audioTruthy audio && decide (visualChangeScore < 5) &&
      cacheFresh clock.nowMs st) = false) :
    observeEnvironment clock st audio visualChangeScore (.ok r) ro =
      (r, ObsSource.fromRemote,
        { st with lastObservation := some ⟨r, clock.nowMs, visualChangeScore⟩ }) := by
  rcases hc : st.lastObservation with _ | c
  · simp [observeEnvironment, observeCore, hc, hOn, hBo]
  · have hm : (!audioTruthy audio && decide (visualChangeScore < 5) &&
        decide (clock.nowMs - c.timestamp < 60000)) = false := by
      simpa [cacheFresh, hc] using hMiss
    simp only [observeEnvironment, observeCore, hc, hOn, hBo]
    simp [hm]

/-- C7 counterexample: offline, with no audio, motion score 0 and a
cache entry younger than 60 s, `observeEnvironment` does not return the
cached observation — it routes to the offline fallback — although the
claimed iff's right-hand side (no audio, score < 5, fresh cache) holds.
The online/backoff gate takes precedence over the cache rule. -/
theorem observe_cache_iff_fails_offline :
    audioTruthy none = false ∧ ((0 : Int) < 5) ∧
      cacheFresh 1000 offlineCachedState = true ∧
      (observeEnvironment ⟨1000, 600⟩ offlineCachedState none 0
          (.ok sampleResult) (.ok sampleResult)).2.1 = ObsSource.fromFallback :=
  ⟨rfl, by norm_num, rfl, rfl⟩

/-- C7 (amended). Provided the gateway is online and the backoff deadline
has passed: the call is served from the cache with no dispatch at all
(the result is `fromCache` no matter how any remote call would have
resolved) if and only if no (nonempty) audio segment is supplied AND the
motion score is below 5 AND a cache entry younger than 60 000 ms exists;
and a nonempty audio segment always forces a fresh dispatched call (a
parsed response is returned `fromRemote` and not from the cache — though
if that first call fails with a payload error, the one-shot
audio-stripped retry re-runs the cache check). -/
theorem observeEnvironment_cache_iff (clock : Clock) (st : GatewayState)
    (audio : Option String) (visualChangeScore : Int)
    (hOn : st.isOnline = true) (hBo : ¬ clock.nowMs < st.backoffUntil) :
    ((∀ o ro : RemoteOutcome,
        (observeEnvironment clock st audio visualChangeScore o ro).2.1 =
          ObsSource.fromCache) ↔
      (audioTruthy audio = false ∧ visualChangeScore < 5 ∧
        cacheFresh clock.nowMs st = true)) ∧
    (∀ (r : ObservationResult) (ro : RemoteOutcome), audioTruthy audio = true →
      (observeEnvironment clock st audio visualChangeScore (.ok r) ro).2.1 =
        ObsSource.fromRemote) := by
  constructor
  · constructor
    · intro hall
      by_cases hB : (!audioTruthy audio && decide (visualChangeScore < 5) &&
          cacheFresh clock.nowMs st) = true
      · have hB2 := hB
        simp only [Bool.and_eq_true, Bool.not_eq_true', decide_eq_true_eq] at hB2
        exact ⟨hB2.1.1, hB2.1.2, hB2.2⟩
      · exfalso
        have h1 := hall (.ok sampleResult) (.ok sampleResult)
        rw [observeEnvironment_ok_miss clock st audio visualChangeScore
          sampleResult (.ok sampleResult) hOn hBo (by simpa using hB)] at h1
        simp at h1
    · intro h o ro
      obtain ⟨hA, hS, hF⟩ := h
      rcases hc : st.lastObservation with _ | c
      · rw [cacheFresh, hc] at hF
        simp at hF
      · have hF' : clock.nowMs - c.timestamp < 60000 := by
          simpa [cacheFresh, hc] using hF
        rw [observeEnvironment_hit clock st audio visualChangeScore o ro c
          hOn hBo hc hA hS hF']
  · intro r ro hAu
    have hMiss : (!audioTruthy audio && decide (visualChangeScore < 5) &&
        cacheFresh clock.nowMs st) = false := by simp [hAu]
    rw [observeEnvironment_ok_miss clock st audio visualChangeScore r ro
      hOn hBo hMiss]

/-- C7 witness: online, no backoff, no audio, score 0, cache stored at
time 0 read at time 1000 — the cached result is served no matter how a
remote call would have resolved. -/
theorem observeEnvironment_cache_iff_example :
    (observeEnvironment ⟨1000, 600⟩ cachedOnlineState none 0
        (.ok sampleResult) (.err false false)).2.1 = ObsSource.fromCache :=
  ((observeEnvironment_cache_iff ⟨1000, 600⟩ cachedOnlineState none 0 rfl
      (by norm_num [cachedOnlineState, GatewayState.init])).1.mpr
    ⟨rfl, by norm_num, rfl⟩) (.ok sampleResult) (.err false false)

/-- The synchronous prefix of `observeEnvironment` preserves the
cache-update discipline of its dispatched continuation: the fallback and
cache return paths leave `lastObservation` untouched, so whatever the
continuation guarantees about cache writes holds for the whole call. -/
theorem observeCore_cache_invariant (clock : Clock) (st : GatewayState)
    (audio : Option String) (visualChangeScore : Int)
    (d : GatewayState → ObservationResult × ObsSource × GatewayState)
    (R : ObservationResult → Prop)
    (hd : ((d st).2.2).lastObservation = st.lastObservation ∨
      ((d st).2.1 = ObsSource.fromRemote ∧ ∃ r, R r ∧ (d st).1 = r ∧
        ((d st).2.2).lastObservation = some ⟨r, clock.nowMs, visualChangeScore⟩)) :
    ((observeCore clock st audio visualChangeScore d).2.2).lastObservation =
        st.lastObservation ∨
      ((observeCore clock st audio visualChangeScore d).2.1 =
          ObsSource.fromRemote ∧
        ∃ r, R r ∧ (observeCore clock st audio visualChangeScore d).1 = r ∧
          ((observeCore clock st audio visualChangeScore d).2.2).lastObservation =
            some ⟨r, clock.nowMs, visualChangeScore⟩) := by
  unfold observeCore
  split
  · exact Or.inl rfl
  · split
    · split
      · exact Or.inl rfl
      · exact hd
    · exact hd

/-- Function `handleError` never touches the observation cache. -/
theorem handleError_lastObservation (now : Int) (rateLimited : Bool)
    (st : GatewayState) :
    (handleError now rateLimited st).lastObservation = st.lastObservation := by
  unfold handleError
  split <;> rfl

/-- C10. `lastObservation` is written only by a successfully parsed
remote observe response: for every call, either the cache field is left
exactly as it was (all fallback, cached and error paths, including the
rate-limit backoff update), or the call's result came from a parsed
remote response (the first attempt or the audio-stripped retry), is the
value returned, and is precisely what the cache now holds (with the
call's timestamp and motion score). A fallback result is therefore never
stored, so it can never later be served as a cached observation within
the cache TTL. -/
theorem observe_cache_update_only_remote (clock : Clock) (st : GatewayState)
    (audio : Option String) (visualChangeScore : Int) (o ro : RemoteOutcome) :
    ((observeEnvironment clock st audio visualChangeScore o ro).2.2).lastObservation =
        st.lastObservation ∨
      ((observeEnvironment clock st audio visualChangeScore o ro).2.1 =
          ObsSource.fromRemote ∧
        ∃ r : ObservationResult, (o = .ok r ∨ ro = .ok r) ∧
          (observeEnvironment clock st audio visualChangeScore o ro).1 = r ∧
          ((observeEnvironment clock st audio visualChangeScore o ro).2.2).lastObservation =
            some ⟨r, clock.nowMs, visualChangeScore⟩) := by
  unfold observeEnvironment
  apply observeCore_cache_invariant clock st audio visualChangeScore _
    (fun r => o = .ok r ∨ ro = .ok r)
  rcases o with r | ⟨rateLimited, invalidArg⟩
  · exact Or.inr ⟨rfl, r, Or.inl rfl, rfl, rfl⟩
  · dsimp only
    split
    · have hd2 : ((observeDispatchNoAudio clock visualChangeScore ro
          (handleError clock.nowMs rateLimited st)).2.2).lastObservation =
            (handleError clock.nowMs rateLimited st).lastObservation ∨
          ((observeDispatchNoAudio clock visualChangeScore ro
              (handleError clock.nowMs rateLimited st)).2.1 =
            ObsSource.fromRemote ∧
            ∃ r, ro = RemoteOutcome.ok r ∧
              (observeDispatchNoAudio clock visualChangeScore ro
                (handleError clock.nowMs rateLimited st)).1 = r ∧
              ((observeDispatchNoAudio clock visualChangeScore ro
                (handleError clock.nowMs rateLimited st)).2.2).lastObservation =
                some ⟨r, clock.nowMs, visualChangeScore⟩) := by
        rcases ro with r2 | ⟨rateLimited2, invalidArg2⟩
        · exact Or.inr ⟨rfl, r2, rfl, rfl, rfl⟩
        · exact Or.inl (handleError_lastObservation _ _ _)
      have hinner := observeCore_cache_invariant clock
        (handleError clock.nowMs rateLimited st) none visualChangeScore
        (observeDispatchNoAudio clock visualChangeScore ro)
        (fun r => ro = RemoteOutcome.ok r) hd2
      rcases hinner with h | ⟨h1, r, hR, h2, h3⟩
      · exact Or.inl (h.trans (handleError_lastObservation _ _ _))
      · exact Or.inr ⟨h1, r, Or.inr hR, h2, h3⟩
    · exact Or.inl (handleError_lastObservation _ _ _)

end RecallAid
